import Mathlib

/-!
Verification of a browser-based 3D model viewer (GLB assets, scene assembly,
camera auto-framing, lighting, animation play/pause) against its
natural-language specification.

The JavaScript sources are shallowly embedded: numbers become `ℚ`, JS objects
become structures with `Option` fields where a property may be absent,
in-place mutation becomes explicit state passing, promise resolution/rejection
becomes `Except`, and asynchronous asset-load outcomes become explicit
`Option Texture` parameters.
-/

namespace Viewer

/-! ## JS value helpers -/

/-- Truthiness of an optional JS string: `undefined`, `null` and `""` are falsy. -/
def jsTruthyStr : Option String → Bool
  | none => false
  | some s => !(s == "")

/-- Truthiness of an optional JS boolean. -/
def jsTruthyBool : Option Bool → Bool
  | none => false
  | some b => b

/-- JS `a || d` for an optional number `a` and a number default `d`:
`undefined` and `0` fall through to the default. -/
def jsOrQ : Option ℚ → ℚ → ℚ
  | none, d => d
  | some x, d => if x = 0 then d else x

/-- JS `a || b` where both operands are optional numbers: if `a` is truthy the
result is `a`, otherwise the result is `b` (which may itself be absent). -/
def jsOrOptQ : Option ℚ → Option ℚ → Option ℚ
  | none, b => b
  | some x, b => if x = 0 then b else some x

/-- A 3-component vector with rational coordinates (JS numbers). -/
structure Vec3 where
  x : ℚ
  y : ℚ
  z : ℚ
deriving DecidableEq, Repr

/-! ## Model-list generator (build script)

Embedding of the build-time script that scans `public/models/` and writes
`src/assets/modelList.js`.  The filesystem listing is the input list
`allFiles`; the generated module is the record of the four exports. -/

/-- JS `String.prototype.endsWith`: suffix test on the character sequence. -/
def jsEndsWith (s pat : String) : Bool :=
  pat.data.isSuffixOf s.data

/-- Scan for the first occurrence of the (non-empty) pattern `pat` and replace
it by `repl`, on character lists. -/
def replaceFirstChars (pat repl : List Char) : List Char → List Char
  | [] => []
  | c :: rest =>
    if pat.isPrefixOf (c :: rest) then repl ++ (c :: rest).drop pat.length
    else c :: replaceFirstChars pat repl rest

/-- JS `String.prototype.replace(pat, repl)` with a string pattern: replaces
only the first occurrence. -/
def jsReplaceFirst (s pat repl : String) : String :=
  ⟨replaceFirstChars pat.data repl.data s.data⟩

/-- The four exports of the generated `modelList.js` module. -/
structure ModelListModule where
  modelFiles : List String
  modelPaths : List String
  modelCount : Nat
  modelNames : List String
deriving DecidableEq, Repr

/-- The generator script, as a function of the directory listing: filter the
`.glb` files, prefix each with `./models/`, count them, and strip the first
occurrence of `.glb` from each name. -/
def generateModelList (allFiles : List String) : ModelListModule :=
  let modelFiles := allFiles.filter (fun file => jsEndsWith file ".glb")
  let modelPaths := modelFiles.map (fun file => "./models/" ++ file)
  { modelFiles := modelFiles
    modelPaths := modelPaths
    modelCount := modelFiles.length
    modelNames := modelFiles.map (fun file => jsReplaceFirst file ".glb" "") }

example : generateModelList ["a.glb", "b.txt", "c.GLB", "a.glb.glb"] =
    { modelFiles := ["a.glb", "a.glb.glb"]
      modelPaths := ["./models/a.glb", "./models/a.glb.glb"]
      modelCount := 2
      modelNames := ["a", "a.glb"] } := by decide

/-- A string whose character sequence ends in a 4-character suffix other than
`.glb` does not pass the generator's `endsWith(".glb")` filter. -/
lemma jsEndsWith_glb_false_of_other_suffix (f : String) (pre suf : List Char)
    (hsplit : f.data = pre ++ suf) (hlen : suf.length = 4)
    (hne : suf ≠ ".glb".data) : jsEndsWith f ".glb" = false := by
  unfold jsEndsWith
  rw [Bool.eq_false_iff]
  intro hsfx
  rw [List.isSuffixOf_iff_suffix] at hsfx
  obtain ⟨t, ht⟩ := hsfx
  rw [hsplit] at ht
  have hlen' : ".glb".data.length = suf.length := by
    rw [hlen]; decide
  obtain ⟨-, hEq⟩ := List.append_inj' ht hlen'
  exact hne hEq.symm

/-- Dropping from the listing a file that fails the `.glb` filter leaves the
filtered file list unchanged. -/
lemma filter_glb_drop_nonmatching (f : String) (hEnd : jsEndsWith f ".glb" = false)
    (l : List String) :
    (l.filter (fun g => !(g == f))).filter (fun g => jsEndsWith g ".glb") =
      l.filter (fun g => jsEndsWith g ".glb") := by
  induction l with
  | nil => rfl
  | cons a l ih =>
    by_cases ha : a = f
    · subst ha
      simp [List.filter_cons, hEnd, ih]
    · have hba : (a == f) = false := beq_false_of_ne ha
      simp [List.filter_cons, hba, ih]

/-- C2: the build-time model-list generator is a directory listing filtered
and mapped deterministically: `modelFiles` is the sublist of `allFiles`
ending in `.glb` in listing order, `modelPaths` prefixes each with
`./models/`, `modelCount` is the length of `modelFiles`, and `modelNames`
removes the first occurrence of `.glb` from each file name. -/
theorem generator_exports_C2 (allFiles : List String) :
    (generateModelList allFiles).modelFiles =
        allFiles.filter (fun file => jsEndsWith file ".glb") ∧
    (generateModelList allFiles).modelPaths =
        (generateModelList allFiles).modelFiles.map (fun file => "./models/" ++ file) ∧
    (generateModelList allFiles).modelCount =
        (generateModelList allFiles).modelFiles.length ∧
    (generateModelList allFiles).modelNames =
        (generateModelList allFiles).modelFiles.map
          (fun file => jsReplaceFirst file ".glb" "") :=
  ⟨rfl, rfl, rfl, rfl⟩

/-- C9: the `.glb` filter of the model-list generator is case-sensitive: a
file whose name ends in a 4-character casing variant of `.glb` other than
exactly `.glb` (for example `.GLB`) is excluded from `modelFiles`, and
removing every copy of it from the listing changes none of the four exports. -/
theorem generator_case_sensitive_C9 (allFiles : List String) (f : String)
    (pre suf : List Char)
    (hsplit : f.data = pre ++ suf)
    (hlower : suf.map Char.toLower = ".glb".data)
    (hne : suf ≠ ".glb".data) :
    f ∉ (generateModelList allFiles).modelFiles ∧
    generateModelList (allFiles.filter (fun g => !(g == f))) =
      generateModelList allFiles := by
  have hlen : suf.length = 4 := by
    have := congrArg List.length hlower
    simpa using this
  have hEnd : jsEndsWith f ".glb" = false :=
    jsEndsWith_glb_false_of_other_suffix f pre suf hsplit hlen hne
  have hfilter := filter_glb_drop_nonmatching f hEnd allFiles
  constructor
  · intro hmem
    have : jsEndsWith f ".glb" = true := by
      have := List.of_mem_filter (p := fun file => jsEndsWith file ".glb") hmem
      simpa using this
    rw [hEnd] at this
    exact Bool.false_ne_true this
  · unfold generateModelList
    rw [hfilter]

/-- Witness for C9 at a concrete listing: `a.GLB` is excluded while `b.glb`
is kept, and deleting `a.GLB` from the listing leaves the module unchanged. -/
theorem generator_case_sensitive_C9_witness :
    "a.GLB" ∉ (generateModelList ["a.GLB", "b.glb"]).modelFiles ∧
    generateModelList (["a.GLB", "b.glb"].filter (fun g => !(g == "a.GLB"))) =
      generateModelList ["a.GLB", "b.glb"] :=
  generator_case_sensitive_C9 ["a.GLB", "b.glb"] "a.GLB"
    ['a'] ['.', 'G', 'L', 'B'] (by decide) (by decide) (by decide)

/-! ## Animation manager

Embedding of `AnimationManager` (mixer wrapper).  The mixer is modelled by
its observable clock state (`time`, `timeScale`); `mixer.update(dt)` advances
`time` by `dt * timeScale`.  The internal `THREE.Clock` is modelled by the
delta its next `getDelta()` call would return. -/

/-- A clip action: whether it has been started and whether it is paused. -/
structure AnimAction where
  running : Bool
  paused : Bool
deriving DecidableEq, Repr

/-- The animation mixer's observable state. -/
structure Mixer where
  time : ℚ
  timeScale : ℚ
deriving DecidableEq, Repr

/-- Embedding of `mixer.update(deltaTime)` advances the mixer clock. -/
def Mixer.advance (m : Mixer) (deltaTime : ℚ) : Mixer :=
  { m with time := m.time + deltaTime * m.timeScale }

/-- State of an `AnimationManager` instance. -/
structure AMState where
  mixer : Option Mixer
  animationActions : List AnimAction
  isPlaying : Bool
  clockDelta : ℚ
deriving DecidableEq, Repr

/-- The guard `this.mixer && this.animationActions.length > 0` shared by
`play`, `pause`, `resume` and `stop`. -/
def AMState.hasAnims (st : AMState) : Bool :=
  st.mixer.isSome && decide (0 < st.animationActions.length)

/-- Embedding of `AnimationManager.play()`: start every action and set `isPlaying`,
returning `true`; with no mixer or no actions return `false` unchanged. -/
def AnimationManager.play (st : AMState) : AMState × Bool :=
  if st.hasAnims then
    ({ st with
        animationActions := st.animationActions.map (fun a => { a with running := true })
        isPlaying := true }, true)
  else (st, false)

/-- Embedding of `AnimationManager.pause()`: pause every action and clear `isPlaying`. -/
def AnimationManager.pause (st : AMState) : AMState × Bool :=
  if st.hasAnims then
    ({ st with
        animationActions := st.animationActions.map (fun a => { a with paused := true })
        isPlaying := false }, true)
  else (st, false)

/-- Embedding of `AnimationManager.resume()`: unpause every action and set `isPlaying`. -/
def AnimationManager.resume (st : AMState) : AMState × Bool :=
  if st.hasAnims then
    ({ st with
        animationActions := st.animationActions.map (fun a => { a with paused := false })
        isPlaying := true }, true)
  else (st, false)

/-- Embedding of `AnimationManager.stop()`: stop every action (which also resets its
paused flag) and clear `isPlaying`. -/
def AnimationManager.stop (st : AMState) : AMState × Bool :=
  if st.hasAnims then
    ({ st with
        animationActions := st.animationActions.map
          (fun _ => { running := false, paused := false })
        isPlaying := false }, true)
  else (st, false)

/-- Embedding of `AnimationManager.togglePlayPause()`. -/
def AnimationManager.togglePlayPause (st : AMState) : AMState × Bool :=
  if st.isPlaying then AnimationManager.pause st else AnimationManager.resume st

/-- Embedding of `AnimationManager.update(deltaTime)`: advance the mixer only when one is
set and `isPlaying` holds. -/
def AnimationManager.update (st : AMState) (deltaTime : ℚ) : AMState :=
  match st.mixer, st.isPlaying with
  | some m, true => { st with mixer := some (m.advance deltaTime) }
  | _, _ => st

/-- Embedding of `AnimationManager.updateWithClock()`: like `update` but the delta comes
from the internal clock (queried only when the guard holds). -/
def AnimationManager.updateWithClock (st : AMState) : AMState :=
  match st.mixer, st.isPlaying with
  | some m, true => { st with mixer := some (m.advance st.clockDelta) }
  | _, _ => st

/-- C5: `play()` returns `true` and sets `isPlaying` exactly when a mixer is
set and the action list is non-empty, otherwise it returns `false` leaving
the state unchanged; `pause()` and `stop()` clear `isPlaying` under the same
precondition; `togglePlayPause()` pauses when playing and resumes when not. -/
theorem animation_flags_C5 (st : AMState) :
    (((AnimationManager.play st).2 = true ∧ (AnimationManager.play st).1.isPlaying = true)
        ↔ (st.mixer.isSome = true ∧ st.animationActions ≠ [])) ∧
    ((AnimationManager.play st).2 = false → (AnimationManager.play st).1 = st) ∧
    ((st.mixer.isSome = true ∧ st.animationActions ≠ []) →
      ((AnimationManager.pause st).1.isPlaying = false ∧
        (AnimationManager.pause st).2 = true ∧
        (AnimationManager.stop st).1.isPlaying = false ∧
        (AnimationManager.stop st).2 = true)) ∧
    (AnimationManager.togglePlayPause st =
      if st.isPlaying then AnimationManager.pause st else AnimationManager.resume st) := by
  have hcond : st.hasAnims = true ↔ (st.mixer.isSome = true ∧ st.animationActions ≠ []) := by
    unfold AMState.hasAnims
    rw [Bool.and_eq_true]
    constructor
    · rintro ⟨h1, h2⟩
      refine ⟨h1, ?_⟩
      intro hnil
      rw [hnil] at h2
      simp at h2
    · rintro ⟨h1, h2⟩
      refine ⟨h1, ?_⟩
      simpa [List.length_pos] using h2
  refine ⟨?_, ?_, ?_, rfl⟩
  · unfold AnimationManager.play
    by_cases h : st.hasAnims = true
    · simp [h, hcond.mp h]
    · rw [Bool.not_eq_true] at h
      simp only [h, Bool.false_eq_true, if_false]
      simp only [false_and, false_iff]
      intro hc
      rw [← hcond] at hc
      rw [h] at hc
      exact Bool.false_ne_true hc
  · unfold AnimationManager.play
    by_cases h : st.hasAnims = true
    · simp [h]
    · rw [Bool.not_eq_true] at h
      simp [h]
  · intro hc
    have h : st.hasAnims = true := hcond.mpr hc
    unfold AnimationManager.pause AnimationManager.stop
    simp [h]

/-- Witness for C5 at concrete states: a manager with a mixer and one action
pauses to `isPlaying = false`; a manager without a mixer leaves `play()`
inert. -/
theorem animation_flags_C5_witness :
    ((AnimationManager.pause
        { mixer := some { time := 0, timeScale := 1 }
          animationActions := [{ running := true, paused := false }]
          isPlaying := true, clockDelta := 0 }).1.isPlaying = false) ∧
    ((AnimationManager.play
        { mixer := none, animationActions := [], isPlaying := false, clockDelta := 0 }).1 =
      { mixer := none, animationActions := [], isPlaying := false, clockDelta := 0 }) := by
  constructor
  · exact ((animation_flags_C5
      { mixer := some { time := 0, timeScale := 1 }
        animationActions := [{ running := true, paused := false }]
        isPlaying := true, clockDelta := 0 }).2.2.1 ⟨rfl, by decide⟩).1
  · exact (animation_flags_C5
      { mixer := none, animationActions := [], isPlaying := false, clockDelta := 0 }).2.1
      (by decide)

/-- C6: the mixer never advances while not playing: `update` and
`updateWithClock` advance the mixer exactly when a mixer is set and
`isPlaying` is `true`, and leave it untouched in every other state. -/
theorem animation_update_C6 (st : AMState) (deltaTime : ℚ) :
    (AnimationManager.update st deltaTime).mixer =
      (if st.mixer.isSome && st.isPlaying then
        st.mixer.map (fun m => m.advance deltaTime) else st.mixer) ∧
    (AnimationManager.updateWithClock st).mixer =
      (if st.mixer.isSome && st.isPlaying then
        st.mixer.map (fun m => m.advance st.clockDelta) else st.mixer) := by
  cases hm : st.mixer with
  | none =>
    cases hp : st.isPlaying <;>
      simp [AnimationManager.update, AnimationManager.updateWithClock, hm, hp]
  | some m =>
    cases hp : st.isPlaying <;>
      simp [AnimationManager.update, AnimationManager.updateWithClock, hm, hp]

/-! ## Lighting managers

Two `LightingManager` classes exist: the basic one in
`src/components/lightingManager.js` and a config-driven one.  Lights are
records; the scene is the ordered list of objects added to it; the `lights`
map is an insertion-ordered association list (JS `Map`). -/

/-- Shadow parameters of a directional light.  The defaults are the library
defaults (`DirectionalLightShadow`: 512×512 map, orthographic camera
(-5, 5, 5, -5, 0.5, 500), zero bias). -/
structure ShadowCfg where
  mapSize : ℚ := 512
  near : ℚ := 1/2
  far : ℚ := 500
  left : ℚ := -5
  right : ℚ := 5
  top : ℚ := 5
  bottom : ℚ := -5
  bias : ℚ := 0
  normalBias : ℚ := 0
deriving DecidableEq, Repr

/-- A directional light. -/
structure DirLight where
  color : Nat
  intensity : ℚ
  position : Vec3
  targetPos : Vec3
  castShadow : Bool
  shadow : ShadowCfg
deriving DecidableEq, Repr

/-- An ambient light. -/
structure AmbLight where
  color : Nat
  intensity : ℚ
deriving DecidableEq, Repr

/-- An object added to the scene by a lighting manager: a light, or a
directional light's target object. -/
inductive SceneObj where
  | amb (a : AmbLight)
  | dir (d : DirLight)
  | dirTarget (p : Vec3)
deriving DecidableEq, Repr

/-- A value stored in a manager's `lights` map. -/
inductive LightVal where
  | amb (a : AmbLight)
  | dir (d : DirLight)
deriving DecidableEq, Repr

/-- JS `Map.prototype.set`: update in place preserving insertion order, or
append a new binding. -/
def mapSet (m : List (String × LightVal)) (k : String) (v : LightVal) :
    List (String × LightVal) :=
  match m with
  | [] => [(k, v)]
  | (k', v') :: rest => if k' == k then (k, v) :: rest else (k', v') :: mapSet rest k v

/-- JS `Map.prototype.get`. -/
def mapGet (m : List (String × LightVal)) (k : String) : Option LightVal :=
  match m with
  | [] => none
  | (k', v') :: rest => if k' == k then some v' else mapGet rest k

/-- State of a lighting manager: the scene (if initialised) and the named
lights map. -/
structure LMState where
  scene : Option (List SceneObj)
  lights : List (String × LightVal)
deriving DecidableEq, Repr

/-- A model's axis-aligned bounding box (unused by `setupForModel` beyond
being passed through, kept for signature fidelity). -/
structure Box3 where
  min : Vec3
  max : Vec3
deriving DecidableEq, Repr

/-- The record returned by `setupForModel`. -/
structure SetupResult where
  mainLight : DirLight
  ambientLight : Option LightVal
  fillLight : Option LightVal
  lightDistance : ℚ
deriving DecidableEq, Repr

namespace Basic

/-- Embedding of `createAmbientLight` of the basic manager: add the light to the scene and
register it under `"ambient"`. -/
def createAmbientLight (sc : List SceneObj) (lights : List (String × LightVal))
    (color : Nat) (intensity : ℚ) :
    List SceneObj × List (String × LightVal) × AmbLight :=
  let a : AmbLight := { color := color, intensity := intensity }
  (sc ++ [.amb a], mapSet lights "ambient" (.amb a), a)

/-- Embedding of `createMainDirectionalLight` of the basic manager: add the target and the
light to the scene and register the light under `"main"`.  The basic manager
never touches `shadow.bias`/`shadow.normalBias`, so they keep the library
defaults carried by `shadow`. -/
def createMainDirectionalLight (sc : List SceneObj) (lights : List (String × LightVal))
    (position target : Vec3) (color : Nat) (intensity : ℚ) (castShadow : Bool)
    (shadow : ShadowCfg) :
    List SceneObj × List (String × LightVal) × DirLight :=
  let d : DirLight :=
    { color := color, intensity := intensity, position := position,
      targetPos := target, castShadow := castShadow, shadow := shadow }
  (sc ++ [.dirTarget target, .dir d], mapSet lights "main" (.dir d), d)

/-- Embedding of `createFillLight` of the basic manager: a plain directional light (shadow
casting off, library-default shadow, target left at the origin and not added
to the scene), registered under `"fill"`. -/
def createFillLight (sc : List SceneObj) (lights : List (String × LightVal))
    (position : Vec3) (color : Nat) (intensity : ℚ) :
    List SceneObj × List (String × LightVal) × DirLight :=
  let d : DirLight :=
    { color := color, intensity := intensity, position := position,
      targetPos := ⟨0, 0, 0⟩, castShadow := false, shadow := {} }
  (sc ++ [.dir d], mapSet lights "fill" (.dir d), d)

/-- Embedding of `LightingManager.setupForModel` of the basic manager. -/
def setupForModel (st : LMState) (boundingBox : Box3) (center : Vec3)
    (radius : ℚ) (sceneOffset : Vec3) : Except String (LMState × SetupResult) :=
  match st.scene with
  | none => .error "lighting manager not initialised"
  | some sc0 =>
    let lightDistance := radius * 3
    let (sc1, l1, _a) := createAmbientLight sc0 st.lights 0xffffff 1
    let mainLightPosition : Vec3 :=
      ⟨center.x + sceneOffset.x + lightDistance,
        center.y + lightDistance, center.z + lightDistance⟩
    let mainLightTarget : Vec3 := ⟨center.x + sceneOffset.x, center.y, center.z⟩
    let (sc2, l2, mainLight) := createMainDirectionalLight sc1 l1
      mainLightPosition mainLightTarget 0xffffff 1 true
      { mapSize := 2048, near := 1/2, far := lightDistance * 3,
        left := -(radius * 2), right := radius * 2,
        top := radius * 2, bottom := -(radius * 2) }
    let fillLightPosition : Vec3 :=
      ⟨center.x + sceneOffset.x - lightDistance * (1/2),
        center.y + lightDistance * (1/2), center.z + lightDistance * (1/2)⟩
    let (sc3, l3, _f) := createFillLight sc2 l2 fillLightPosition 0xffffff (3/10)
    .ok ({ scene := some sc3, lights := l3 },
      { mainLight := mainLight, ambientLight := mapGet l3 "ambient",
        fillLight := mapGet l3 "fill", lightDistance := lightDistance })

end Basic

namespace ConfigDriven

/-- Embedding of `createAmbientLight` of the config-driven manager: adds the light to the
scene but does NOT register it in the `lights` map. -/
def createAmbientLight (sc : List SceneObj) (color : Nat) (intensity : ℚ) :
    List SceneObj × AmbLight :=
  let a : AmbLight := { color := color, intensity := intensity }
  (sc ++ [.amb a], a)

/-- Embedding of `createDirectionalLight` of the config-driven manager: always adds the
target to the scene, and does NOT register the light in the `lights` map.
Call sites supply the destructuring defaults (target `(0,0,0)`, shadow
casting on, `bias = -0.001`, `normalBias = 0.02`, ...) for absent options. -/
def createDirectionalLight (sc : List SceneObj) (position target : Vec3)
    (color : Nat) (intensity : ℚ) (castShadow : Bool) (shadow : ShadowCfg) :
    List SceneObj × DirLight :=
  let d : DirLight :=
    { color := color, intensity := intensity, position := position,
      targetPos := target, castShadow := castShadow, shadow := shadow }
  (sc ++ [.dirTarget target, .dir d], d)

/-- The shadow parameters produced by `createDirectionalLight` when only the
fields of `shadow = {}` are defaulted (destructuring defaults of the
config-driven manager). -/
def dirShadowDefaults : ShadowCfg :=
  { mapSize := 2048, near := 1/2, far := 50, left := -10, right := 10,
    top := 10, bottom := -10, bias := -(1/1000), normalBias := 1/50 }

/-- Embedding of `LightingManager.setupForModel` of the config-driven manager: same
arithmetic as the basic one, but its create helpers never update the
`lights` map, `createFillLight` delegates to `createDirectionalLight` (so
the fill light gets a scene-added origin target, shadow casting on and the
bias defaults), and the returned `ambientLight`/`fillLight` are whatever the
pre-existing map holds under those keys. -/
def setupForModel (st : LMState) (boundingBox : Box3) (center : Vec3)
    (radius : ℚ) (sceneOffset : Vec3) : Except String (LMState × SetupResult) :=
  match st.scene with
  | none => .error "lighting manager not initialised"
  | some sc0 =>
    let lightDistance := radius * 3
    let (sc1, _a) := createAmbientLight sc0 0xffffff 1
    let mainLightPosition : Vec3 :=
      ⟨center.x + sceneOffset.x + lightDistance,
        center.y + lightDistance, center.z + lightDistance⟩
    let mainLightTarget : Vec3 := ⟨center.x + sceneOffset.x, center.y, center.z⟩
    let (sc2, mainLight) := createDirectionalLight sc1
      mainLightPosition mainLightTarget 0xffffff 1 true
      { dirShadowDefaults with
        mapSize := 2048, near := 1/2, far := lightDistance * 3,
        left := -(radius * 2), right := radius * 2,
        top := radius * 2, bottom := -(radius * 2) }
    let fillLightPosition : Vec3 :=
      ⟨center.x + sceneOffset.x - lightDistance * (1/2),
        center.y + lightDistance * (1/2), center.z + lightDistance * (1/2)⟩
    let (sc3, _f) := createDirectionalLight sc2 fillLightPosition ⟨0, 0, 0⟩
      0xffffff (3/10) true dirShadowDefaults
    .ok ({ scene := some sc3, lights := st.lights },
      { mainLight := mainLight, ambientLight := mapGet st.lights "ambient",
        fillLight := mapGet st.lights "fill", lightDistance := lightDistance })

end ConfigDriven

lemma mapGet_mapSet_self (m : List (String × LightVal)) (k : String) (v : LightVal) :
    mapGet (mapSet m k v) k = some v := by
  induction m with
  | nil => simp [mapSet, mapGet]
  | cons p rest ih =>
    obtain ⟨k', v'⟩ := p
    by_cases h : (k' == k) = true
    · simp [mapSet, mapGet, h]
    · rw [Bool.not_eq_true] at h
      simp [mapSet, mapGet, h, ih]

lemma mapGet_mapSet_ne (m : List (String × LightVal)) (k k' : String) (v : LightVal)
    (h : (k' == k) = false) : mapGet (mapSet m k' v) k = mapGet m k := by
  induction m with
  | nil => simp [mapSet, mapGet, h]
  | cons p rest ih =>
    obtain ⟨k₀, v₀⟩ := p
    by_cases h0 : (k₀ == k') = true
    · have hk : k₀ = k' := eq_of_beq h0
      subst hk
      simp [mapSet, mapGet, h0, h]
    · rw [Bool.not_eq_true] at h0
      simp only [mapSet, h0, Bool.false_eq_true, if_false]
      by_cases h1 : (k₀ == k) = true
      · simp [mapGet, h1]
      · rw [Bool.not_eq_true] at h1
        simp [mapGet, h1, ih]

/-- A freshly initialised lighting manager: `init(scene)` with an empty scene
and no registered lights. -/
def lmInit : LMState := { scene := some [], lights := [] }

/-- A concrete bounding box used by witnesses. -/
def bb0 : Box3 := { min := ⟨0, 0, 0⟩, max := ⟨1, 1, 1⟩ }

/-- C4: light placement is vector arithmetic on the bounding box: on an
initialised manager, `setupForModel` returns `lightDistance = 3 * radius`,
puts the main directional light at
`(center.x + sceneOffset.x + lightDistance, center.y + lightDistance,
center.z + lightDistance)` targeting `(center.x + sceneOffset.x, center.y,
center.z)`, puts the fill light at the half-distance offsets, creates an
ambient light of intensity 1, and throws when not initialised. -/
theorem lighting_setup_C4 (st : LMState) (boundingBox : Box3) (center : Vec3)
    (radius : ℚ) (sceneOffset : Vec3) :
    (st.scene = none →
      Basic.setupForModel st boundingBox center radius sceneOffset =
        .error "lighting manager not initialised") ∧
    (∀ sc0, st.scene = some sc0 →
      (Basic.setupForModel st boundingBox center radius sceneOffset).toOption.map
          (fun p => p.2) =
        some
          { mainLight :=
              { color := 0xffffff, intensity := 1
                position := ⟨center.x + sceneOffset.x + 3 * radius,
                  center.y + 3 * radius, center.z + 3 * radius⟩
                targetPos := ⟨center.x + sceneOffset.x, center.y, center.z⟩
                castShadow := true
                shadow :=
                  { mapSize := 2048, near := 1/2, far := 9 * radius,
                    left := -(2 * radius), right := 2 * radius,
                    top := 2 * radius, bottom := -(2 * radius) } }
            ambientLight := some (.amb { color := 0xffffff, intensity := 1 })
            fillLight := some (.dir
              { color := 0xffffff, intensity := 3/10
                position := ⟨center.x + sceneOffset.x - (1/2) * (3 * radius),
                  center.y + (1/2) * (3 * radius), center.z + (1/2) * (3 * radius)⟩
                targetPos := ⟨0, 0, 0⟩, castShadow := false, shadow := {} })
            lightDistance := 3 * radius }) := by
  constructor
  · intro h
    unfold Basic.setupForModel
    rw [h]
  · intro sc0 h
    simp only [Basic.setupForModel, h, Basic.createAmbientLight,
      Basic.createMainDirectionalLight, Basic.createFillLight,
      Except.toOption, Option.map_some']
    rw [mapGet_mapSet_ne _ _ _ _ (by decide), mapGet_mapSet_ne _ _ _ _ (by decide),
      mapGet_mapSet_self, mapGet_mapSet_self]
    simp only [Option.some.injEq, SetupResult.mk.injEq, DirLight.mk.injEq,
      ShadowCfg.mk.injEq, Vec3.mk.injEq, LightVal.dir.injEq, LightVal.amb.injEq,
      AmbLight.mk.injEq]
    repeat' apply And.intro
    all_goals first | rfl | ring

/-- Witness for C4: a fresh manager with `center = (1, 2, 3)`, `radius = 2`
and `sceneOffset = (4, 0, 0)` produces the claimed record, and an
uninitialised manager throws. -/
theorem lighting_setup_C4_witness :
    (Basic.setupForModel lmInit bb0 ⟨1, 2, 3⟩ 2 ⟨4, 0, 0⟩).toOption.map
        (fun p => p.2) =
      some
        { mainLight :=
            { color := 0xffffff, intensity := 1
              position := ⟨1 + 4 + 3 * 2, 2 + 3 * 2, 3 + 3 * 2⟩
              targetPos := ⟨1 + 4, 2, 3⟩
              castShadow := true
              shadow :=
                { mapSize := 2048, near := 1/2, far := 9 * 2,
                  left := -(2 * 2), right := 2 * 2,
                  top := 2 * 2, bottom := -(2 * 2) } }
          ambientLight := some (.amb { color := 0xffffff, intensity := 1 })
          fillLight := some (.dir
            { color := 0xffffff, intensity := 3/10
              position := ⟨1 + 4 - (1/2) * (3 * 2), 2 + (1/2) * (3 * 2),
                3 + (1/2) * (3 * 2)⟩
              targetPos := ⟨0, 0, 0⟩, castShadow := false, shadow := {} })
          lightDistance := 3 * 2 } ∧
    Basic.setupForModel { scene := none, lights := [] } bb0 ⟨1, 2, 3⟩ 2 ⟨4, 0, 0⟩ =
      .error "lighting manager not initialised" := by
  constructor
  · exact (lighting_setup_C4 lmInit bb0 ⟨1, 2, 3⟩ 2 ⟨4, 0, 0⟩).2 [] rfl
  · exact (lighting_setup_C4 { scene := none, lights := [] } bb0 ⟨1, 2, 3⟩ 2
      ⟨4, 0, 0⟩).1 rfl

/-- C10 fails: on freshly-initialised managers with identical inputs the two
`setupForModel` implementations return different records — the basic one
returns the created ambient light, the config-driven one returns `none`
(`undefined`) because its create helpers never register lights in the map. -/
theorem lighting_equiv_C10_counterexample :
    (Basic.setupForModel lmInit bb0 ⟨0, 0, 0⟩ 1 ⟨0, 0, 0⟩).toOption.map
        (fun p => p.2.ambientLight) ≠
      (ConfigDriven.setupForModel lmInit bb0 ⟨0, 0, 0⟩ 1 ⟨0, 0, 0⟩).toOption.map
        (fun p => p.2.ambientLight) ∧
    (Basic.setupForModel lmInit bb0 ⟨0, 0, 0⟩ 1 ⟨0, 0, 0⟩).toOption.map
        (fun p => p.2.ambientLight) =
      some (some (.amb { color := 0xffffff, intensity := 1 })) ∧
    (ConfigDriven.setupForModel lmInit bb0 ⟨0, 0, 0⟩ 1 ⟨0, 0, 0⟩).toOption.map
        (fun p => p.2.ambientLight) = some none := by
  have hb : (Basic.setupForModel lmInit bb0 ⟨0, 0, 0⟩ 1 ⟨0, 0, 0⟩).toOption.map
      (fun p => p.2.ambientLight) =
      some (some (.amb { color := 0xffffff, intensity := 1 })) := by
    simp only [Basic.setupForModel, lmInit, Basic.createAmbientLight,
      Basic.createMainDirectionalLight, Basic.createFillLight,
      Except.toOption, Option.map_some']
    rw [mapGet_mapSet_ne _ _ _ _ (by decide), mapGet_mapSet_ne _ _ _ _ (by decide),
      mapGet_mapSet_self]
  have hc : (ConfigDriven.setupForModel lmInit bb0 ⟨0, 0, 0⟩ 1 ⟨0, 0, 0⟩).toOption.map
      (fun p => p.2.ambientLight) = some none := by
    simp only [ConfigDriven.setupForModel, lmInit, ConfigDriven.createAmbientLight,
      ConfigDriven.createDirectionalLight, ConfigDriven.dirShadowDefaults,
      Except.toOption, Option.map_some']
    rfl
  refine ⟨?_, hb, hc⟩
  rw [hb, hc]
  intro h
  injection h with h1
  exact Option.noConfusion h1

/-- C10 amended: on freshly-initialised managers the two implementations
agree on the arithmetic (`lightDistance = 3 * radius`, identical main-light
position and target), but they are not observationally equivalent: the basic
manager returns the created ambient and fill lights and adds 4 scene
objects, while the config-driven manager returns `none` for both, adds 5
scene objects (its fill light gets an origin target object), and sets shadow
bias `-0.001` on its main light where the basic manager leaves the library
default `0`. -/
theorem lighting_equiv_C10_amended (boundingBox : Box3) (center : Vec3)
    (radius : ℚ) (sceneOffset : Vec3) :
    (Basic.setupForModel lmInit boundingBox center radius sceneOffset).toOption.map
        (fun p => p.2.lightDistance) = some (3 * radius) ∧
    (ConfigDriven.setupForModel lmInit boundingBox center radius sceneOffset).toOption.map
        (fun p => p.2.lightDistance) = some (3 * radius) ∧
    (Basic.setupForModel lmInit boundingBox center radius sceneOffset).toOption.map
        (fun p => p.2.mainLight.position) =
      (ConfigDriven.setupForModel lmInit boundingBox center radius sceneOffset).toOption.map
        (fun p => p.2.mainLight.position) ∧
    (Basic.setupForModel lmInit boundingBox center radius sceneOffset).toOption.map
        (fun p => p.2.mainLight.targetPos) =
      (ConfigDriven.setupForModel lmInit boundingBox center radius sceneOffset).toOption.map
        (fun p => p.2.mainLight.targetPos) ∧
    (Basic.setupForModel lmInit boundingBox center radius sceneOffset).toOption.map
        (fun p => p.2.ambientLight) =
      some (some (.amb { color := 0xffffff, intensity := 1 })) ∧
    (ConfigDriven.setupForModel lmInit boundingBox center radius sceneOffset).toOption.map
        (fun p => p.2.ambientLight) = some none ∧
    (ConfigDriven.setupForModel lmInit boundingBox center radius sceneOffset).toOption.map
        (fun p => p.2.fillLight) = some none ∧
    (Basic.setupForModel lmInit boundingBox center radius sceneOffset).toOption.map
        (fun p => p.1.scene.map List.length) = some (some 4) ∧
    (ConfigDriven.setupForModel lmInit boundingBox center radius sceneOffset).toOption.map
        (fun p => p.1.scene.map List.length) = some (some 5) ∧
    (Basic.setupForModel lmInit boundingBox center radius sceneOffset).toOption.map
        (fun p => p.2.mainLight.shadow.bias) = some 0 ∧
    (ConfigDriven.setupForModel lmInit boundingBox center radius sceneOffset).toOption.map
        (fun p => p.2.mainLight.shadow.bias) = some (-(1/1000)) := by
  simp only [Basic.setupForModel, ConfigDriven.setupForModel, lmInit,
    Basic.createAmbientLight, Basic.createMainDirectionalLight,
    Basic.createFillLight, ConfigDriven.createAmbientLight,
    ConfigDriven.createDirectionalLight, ConfigDriven.dirShadowDefaults,
    Except.toOption, Option.map_some', Option.some.injEq]
  refine ⟨by ring, by ring, by trivial, by trivial, ?_, by trivial, by trivial,
    by simp, by simp, by trivial, by trivial⟩
  rw [mapGet_mapSet_ne _ _ _ _ (by decide), mapGet_mapSet_ne _ _ _ _ (by decide),
    mapGet_mapSet_self]

/-! ## Scene manager and environment configuration

Embedding of `SceneManager` (environment handling) and
`enviromentConfig.js`.  Scene state tracked: the stored environment
configuration, `scene.background` and `scene.environment`.  Asynchronous
texture loads are modelled by explicit `Option Texture` outcome
parameters. -/

/-- Texture mapping modes used by the viewer. -/
inductive TexMapping where
  | defaultMapping
  | equirect
deriving DecidableEq, Repr

/-- Texture colour spaces used by the viewer. -/
inductive TexColorSpace where
  | noColorSpace
  | srgb
deriving DecidableEq, Repr

/-- A texture, by its source and the properties the viewer sets on it. -/
structure Texture where
  source : String
  mapping : TexMapping := .defaultMapping
  colorSpace : TexColorSpace := .noColorSpace
  exposure : Option ℚ := none
  intensity : Option ℚ := none
deriving DecidableEq, Repr

/-- A value of `scene.background`: a texture or a colour. -/
inductive BgObj where
  | tex (t : Texture)
  | color (c : Nat)
deriving DecidableEq, Repr

/-- The nested `background` block of an environment configuration. -/
structure BackgroundCfg where
  type : Option String := none
  path : Option String := none
  color : Option Nat := none
deriving DecidableEq, Repr

/-- An environment configuration object; every property may be absent. -/
structure EnvConfig where
  type : Option String := none
  enabled : Option Bool := none
  name : Option String := none
  description : Option String := none
  hdrPath : Option String := none
  fallbackPath : Option String := none
  intensity : Option ℚ := none
  exposure : Option ℚ := none
  backgroundColor : Option Nat := none
  background : Option BackgroundCfg := none
deriving DecidableEq, Repr

/-- Embedding of `environmentPresets.room`, the preset copied into a fresh
`SceneManager`'s `environmentConfig`. -/
def roomPreset : EnvConfig :=
  { type := some "room", enabled := some true, name := some "room",
    description := some "RoomEnvironment", intensity := some (8/10),
    background := some { type := some "texture", path := some "./sunny2.jpg" } }

/-- The valid environment types accepted by the validator. -/
def validTypes : List String := ["room", "hdr", "default", "none"]

/-- Result of `validateEnvironmentConfig`. -/
structure ValidationResult where
  valid : Bool
  errors : List String
deriving DecidableEq, Repr

/-- Embedding of `validateEnvironmentConfig(config)`: collect an error per failed check
and accept exactly when no error was collected. -/
def validateEnvironmentConfig (config : Option EnvConfig) : ValidationResult :=
  match config with
  | none => { valid := false, errors := ["config object must not be empty"] }
  | some c =>
    let e1 := if jsTruthyStr c.type then [] else ["environment type must not be empty"]
    let e2 := match c.type with
      | some t => if t ≠ "" ∧ ¬ t ∈ validTypes then ["invalid environment type"] else []
      | none => []
    let e3 := if c.type = some "hdr" ∧ jsTruthyStr c.hdrPath = false then
        ["hdr environment requires hdrPath"] else []
    let e4 := match c.intensity with
      | some i => if i < 0 ∨ 10 < i then ["intensity must be between 0 and 10"] else []
      | none => []
    let e5 := match c.exposure with
      | some e => if e < 0 ∨ 10 < e then ["exposure must be between 0 and 10"] else []
      | none => []
    let errors := e1 ++ (e2 ++ (e3 ++ (e4 ++ e5)))
    { valid := errors.isEmpty, errors := errors }

/-- JS object spread `{ ...a, ...b }` on environment configurations: each
property of `b` that is present overrides the one of `a`. -/
def jsSpreadMerge (a b : EnvConfig) : EnvConfig :=
  let ov : {α : Type} → Option α → Option α → Option α := fun x y =>
    match x with
    | some v => some v
    | none => y
  { type := ov b.type a.type, enabled := ov b.enabled a.enabled,
    name := ov b.name a.name, description := ov b.description a.description,
    hdrPath := ov b.hdrPath a.hdrPath, fallbackPath := ov b.fallbackPath a.fallbackPath,
    intensity := ov b.intensity a.intensity, exposure := ov b.exposure a.exposure,
    backgroundColor := ov b.backgroundColor a.backgroundColor,
    background := ov b.background a.background }

/-- Embedding of `SceneManager` state: the stored environment configuration and the
scene's background/environment slots. -/
structure SMState where
  environmentConfig : EnvConfig
  background : Option BgObj := none
  environment : Option Texture := none
deriving DecidableEq, Repr

/-- A freshly constructed `SceneManager` (room preset, empty scene). -/
def smInit : SMState := { environmentConfig := roomPreset }

/-- Embedding of `SceneManager.clearEnvironment()`: dispose and null out both slots. -/
def clearEnvironment (st : SMState) : SMState :=
  { st with background := none, environment := none }

/-- Embedding of `SceneManager.setFallbackSky(options)`: on a successful fallback-texture
load install it as background and (with intensity applied to a clone) as
environment; on failure — including a loader exception — fall back to the
default sky-blue colour background. -/
def setFallbackSky (opts : EnvConfig) (fallbackOutcome : Option Texture)
    (st : SMState) : SMState :=
  match fallbackOutcome with
  | some t =>
    let t1 :=
      { t with
        mapping := .equirect,
        colorSpace := .srgb,
        exposure := some (jsOrQ opts.exposure (1/5)) }
    let envT :=
      { t1 with intensity := jsOrOptQ opts.intensity st.environmentConfig.intensity }
    { st with background := some (.tex t1), environment := some envT }
  | none => { st with background := some (.color 0x87ceeb) }

/-- Embedding of `SceneManager.setHDRSky(options)`: on a successful HDR load install the
texture as background and (with intensity applied to a clone) as
environment; on a failed load log and delegate to `setFallbackSky`. -/
def setHDRSky (opts : EnvConfig) (hdrOutcome fallbackOutcome : Option Texture)
    (st : SMState) : SMState :=
  match hdrOutcome with
  | some t =>
    let t1 :=
      { t with
        mapping := .equirect,
        colorSpace := .srgb,
        exposure := some (jsOrQ opts.exposure 2) }
    let envT :=
      { t1 with intensity := jsOrOptQ opts.intensity st.environmentConfig.intensity }
    { st with background := some (.tex t1), environment := some envT }
  | none => setFallbackSky opts fallbackOutcome st

/-- Embedding of `SceneManager.setEnvironment(type, options)`: clear the current
environment, then install the one selected by `type` (the PMREM-generated
`RoomEnvironment` texture, the HDR sky, the default sky-blue colour, or
nothing for `none`/unknown types). -/
def setEnvironment (type : String) (opts : EnvConfig)
    (hdrOutcome fallbackOutcome : Option Texture) (st : SMState) : SMState :=
  let st0 := clearEnvironment st
  if type == "room" then
    { st0 with environment := some { source := "RoomEnvironment" } }
  else if type == "hdr" then setHDRSky opts hdrOutcome fallbackOutcome st0
  else if type == "default" then
    { st0 with background := some (.color 0x87ceeb) }
  else st0

/-- Embedding of `SceneManager.updateEnvironmentConfig(config)`: validate, and on failure
return `false` without touching anything; on success merge the config over
the stored one, apply it (or clear, when `enabled` is falsy), and return
`true`. -/
def updateEnvironmentConfig (hdrOutcome fallbackOutcome : Option Texture)
    (st : SMState) (config : Option EnvConfig) : SMState × Bool :=
  if (validateEnvironmentConfig config).valid = false then (st, false)
  else
    match config with
    | none => (st, false)
    | some c =>
      let merged := jsSpreadMerge st.environmentConfig c
      let st1 := { st with environmentConfig := merged }
      if jsTruthyBool merged.enabled then
        (setEnvironment (merged.type.getD "") merged hdrOutcome fallbackOutcome st1, true)
      else (clearEnvironment st1, true)

/-- Concrete HDR options used by counterexamples (the project defaults). -/
def opts0 : EnvConfig :=
  { type := some "hdr", hdrPath := some "./hdr/bg.hdr",
    fallbackPath := some "./bg.jpg" }

/-- A concrete fallback texture. -/
def texW : Texture := { source := "./bg.jpg" }

/-- C3 fails: a failed HDR environment load does not merely log — with both
loads failing, `setHDRSky` installs the substitute sky-blue background
(changing scene state), and with the fallback load succeeding it installs
the fallback texture as background. -/
theorem error_handling_C3_counterexample :
    (setHDRSky opts0 none none smInit).background = some (.color 0x87ceeb) ∧
    setHDRSky opts0 none none smInit ≠ smInit ∧
    (setHDRSky opts0 none (some texW) smInit).background =
      some (.tex
        { texW with
          mapping := .equirect,
          colorSpace := .srgb,
          exposure := some (1/5) }) := by
  refine ⟨rfl, ?_, rfl⟩
  intro h
  exact absurd (congrArg SMState.background h) (by decide)

/-- C3 amended: the HDR failure handler is a recovery path, not log-only: on
a failed HDR load `setHDRSky` delegates to `setFallbackSky`, which installs
the loaded fallback texture as background and environment, and if the
fallback also fails installs the default sky-blue (`0x87ceeb`) colour
background. -/
theorem error_handling_C3_amended (opts : EnvConfig)
    (fallbackOutcome : Option Texture) (st : SMState) (t : Texture) :
    setHDRSky opts none fallbackOutcome st = setFallbackSky opts fallbackOutcome st ∧
    (setFallbackSky opts none st).background = some (.color 0x87ceeb) ∧
    (setFallbackSky opts (some t) st).background =
      some (.tex
        { t with
          mapping := .equirect,
          colorSpace := .srgb,
          exposure := some (jsOrQ opts.exposure (1/5)) }) ∧
    (setFallbackSky opts (some t) st).environment =
      some
        { t with
          mapping := .equirect,
          colorSpace := .srgb,
          exposure := some (jsOrQ opts.exposure (1/5)),
          intensity := jsOrOptQ opts.intensity st.environmentConfig.intensity } :=
  ⟨rfl, rfl, rfl, rfl⟩

/-- The rejection condition exactly as the specification words it: the
config is absent, its `type` is absent (JS-falsy) or not one of the four
valid types, it is `hdr` without a (truthy) `hdrPath`, or a supplied
`intensity` or `exposure` lies outside `[0, 10]`. -/
def claimRejects (config : Option EnvConfig) : Prop :=
  config = none ∨
    ∃ c, config = some c ∧
      ((¬ ∃ t, c.type = some t ∧ t ≠ "" ∧ t ∈ validTypes) ∨
        (c.type = some "hdr" ∧ jsTruthyStr c.hdrPath = false) ∨
        (∃ i, c.intensity = some i ∧ (i < 0 ∨ 10 < i)) ∨
        (∃ e, c.exposure = some e ∧ (e < 0 ∨ 10 < e)))

lemma if_nil_eq_nil_iff {P : Prop} [Decidable P] (m : String) :
    ((if P then ([] : List String) else [m]) = []) ↔ P := by
  by_cases h : P <;> simp [h]

lemma if_cons_eq_nil_iff {P : Prop} [Decidable P] (m : String) :
    ((if P then [m] else ([] : List String)) = []) ↔ ¬ P := by
  by_cases h : P <;> simp [h]

/-- The validator rejects exactly under `claimRejects`. -/
lemma validate_valid_false_iff (config : Option EnvConfig) :
    (validateEnvironmentConfig config).valid = false ↔ claimRejects config := by
  cases config with
  | none => simp [validateEnvironmentConfig, claimRejects]
  | some c =>
    simp only [validateEnvironmentConfig, claimRejects, Option.some.injEq,
      reduceCtorEq, false_or, exists_eq_left']
    rw [Bool.eq_false_iff, ne_eq, List.isEmpty_eq_true]
    simp only [List.append_eq_nil]
    rw [not_and_or, not_and_or, not_and_or, not_and_or]
    constructor
    · rintro (h1 | h2 | h3 | h4 | h5)
      · left
        rw [if_nil_eq_nil_iff] at h1
        rcases htype : c.type with _ | t
        · rintro ⟨t, ht, -⟩
          exact Option.noConfusion ht
        · rintro ⟨t', ht', hne, -⟩
          rw [Option.some.injEq] at ht'
          subst ht'
          rw [htype] at h1
          exact hne (by simpa [jsTruthyStr] using h1)
      · left
        rcases htype : c.type with _ | t
        · rw [htype] at h2
          exact absurd rfl h2
        · rw [htype] at h2
          have h2' : ¬ ((if t ≠ "" ∧ ¬ t ∈ validTypes then
              ["invalid environment type"] else ([] : List String)) = []) := h2
          rw [if_cons_eq_nil_iff, not_not] at h2'
          rintro ⟨t', ht', hne, hmem⟩
          rw [Option.some.injEq] at ht'
          subst ht'
          exact h2'.2 hmem
      · right; left
        rw [if_cons_eq_nil_iff, not_not] at h3
        exact h3
      · right; right; left
        rcases hint : c.intensity with _ | i
        · rw [hint] at h4
          exact absurd rfl h4
        · rw [hint] at h4
          have h4' : ¬ ((if i < 0 ∨ 10 < i then
              ["intensity must be between 0 and 10"] else ([] : List String)) = []) := h4
          rw [if_cons_eq_nil_iff, not_not] at h4'
          exact ⟨i, rfl, h4'⟩
      · right; right; right
        rcases hexp : c.exposure with _ | e
        · rw [hexp] at h5
          exact absurd rfl h5
        · rw [hexp] at h5
          have h5' : ¬ ((if e < 0 ∨ 10 < e then
              ["exposure must be between 0 and 10"] else ([] : List String)) = []) := h5
          rw [if_cons_eq_nil_iff, not_not] at h5'
          exact ⟨e, rfl, h5'⟩
    · rintro (hbad | hhdr | ⟨i, hi, hout⟩ | ⟨e, he, hout⟩)
      · rcases htype : c.type with _ | t
        · left
          rw [if_nil_eq_nil_iff]
          simp [jsTruthyStr]
        · by_cases hemp : t = ""
          · left
            rw [if_nil_eq_nil_iff]
            simp [jsTruthyStr, hemp]
          · right; left
            show ¬ ((if t ≠ "" ∧ ¬ t ∈ validTypes then
              ["invalid environment type"] else ([] : List String)) = [])
            rw [if_cons_eq_nil_iff, not_not]
            exact ⟨hemp, fun hmem => hbad ⟨t, htype, hemp, hmem⟩⟩
      · right; right; left
        rw [if_cons_eq_nil_iff, not_not]
        exact hhdr
      · right; right; right; left
        rw [hi]
        show ¬ ((if i < 0 ∨ 10 < i then
          ["intensity must be between 0 and 10"] else ([] : List String)) = [])
        rw [if_cons_eq_nil_iff, not_not]
        exact hout
      · right; right; right; right
        rw [he]
        show ¬ ((if e < 0 ∨ 10 < e then
          ["exposure must be between 0 and 10"] else ([] : List String)) = [])
        rw [if_cons_eq_nil_iff, not_not]
        exact hout

/-- C7: environment configuration is validated before it is applied:
`updateEnvironmentConfig` returns the validator's verdict, leaves the stored
configuration untouched on rejection, merges the config over the stored one
on acceptance, and the validator rejects exactly when the config is absent,
its `type` is absent or not one of `room`/`hdr`/`default`/`none`, it is
`hdr` without an `hdrPath`, or a supplied `intensity` or `exposure` lies
outside `[0, 10]`. -/
theorem env_config_C7 (hdrOutcome fallbackOutcome : Option Texture)
    (st : SMState) (config : Option EnvConfig) :
    ((updateEnvironmentConfig hdrOutcome fallbackOutcome st config).2 =
      (validateEnvironmentConfig config).valid) ∧
    ((validateEnvironmentConfig config).valid = false →
      (updateEnvironmentConfig hdrOutcome fallbackOutcome st config).1 = st) ∧
    (∀ c, config = some c → (validateEnvironmentConfig config).valid = true →
      (updateEnvironmentConfig hdrOutcome fallbackOutcome st config).1.environmentConfig =
        jsSpreadMerge st.environmentConfig c) ∧
    ((validateEnvironmentConfig config).valid = false ↔ claimRejects config) := by
  refine ⟨?_, ?_, ?_, validate_valid_false_iff config⟩
  · by_cases h : (validateEnvironmentConfig config).valid = false
    · simp [updateEnvironmentConfig, h]
    · rw [Bool.not_eq_false] at h
      cases config with
      | none =>
        rw [show (validateEnvironmentConfig none).valid = false from rfl] at h
        exact absurd h (by decide)
      | some c =>
        rw [h]
        simp only [updateEnvironmentConfig, h, Bool.true_eq_false, if_false]
        by_cases he : jsTruthyBool (jsSpreadMerge st.environmentConfig c).enabled = true
        · simp [he]
        · rw [Bool.not_eq_true] at he
          simp [he]
  · intro h
    simp [updateEnvironmentConfig, h]
  · intro c hc h
    subst hc
    simp only [updateEnvironmentConfig, h, Bool.true_eq_false, if_false]
    by_cases he : jsTruthyBool (jsSpreadMerge st.environmentConfig c).enabled = true
    · simp only [he, if_true]
      by_cases hr : ((jsSpreadMerge st.environmentConfig c).type.getD "") == "room"
      · simp [setEnvironment, clearEnvironment, hr]
      · by_cases hh : ((jsSpreadMerge st.environmentConfig c).type.getD "") == "hdr"
        · simp only [setEnvironment, hr, hh, Bool.false_eq_true, if_false, if_true]
          cases hdrOutcome with
          | some t => simp [setHDRSky, clearEnvironment]
          | none =>
            cases fallbackOutcome with
            | some t => simp [setHDRSky, setFallbackSky, clearEnvironment]
            | none => simp [setHDRSky, setFallbackSky, clearEnvironment]
        · by_cases hd : ((jsSpreadMerge st.environmentConfig c).type.getD "") == "default"
          · simp [setEnvironment, clearEnvironment, hr, hh, hd]
          · simp [setEnvironment, clearEnvironment, hr, hh, hd]
    · rw [Bool.not_eq_true] at he
      simp [he, clearEnvironment]

/-- Witness for C7: the config `{ type: "room" }` is accepted and merged
over the room preset; the config `{ type: "bogus" }` is rejected and leaves
the manager untouched. -/
theorem env_config_C7_witness :
    (updateEnvironmentConfig none none smInit
        (some { type := some "room" })).1.environmentConfig =
      jsSpreadMerge smInit.environmentConfig { type := some "room" } ∧
    (updateEnvironmentConfig none none smInit
        (some { type := some "bogus" })).1 = smInit := by
  constructor
  · exact (env_config_C7 none none smInit
      (some { type := some "room" })).2.2.1 { type := some "room" } rfl rfl
  · exact (env_config_C7 none none smInit
      (some { type := some "bogus" })).2.1 rfl

/-! ## Model loader and camera auto-framing

Embedding of `modelLoader.js` (`loadModel`,
`autoSetupCameraAndControls`) and the parts of `CameraManager` it uses.
The generated `modelList.js` arrays and `config.defaultCameraPosition` are
parameters; the asynchronous GLTF load outcome is an explicit
`Except String Gltf` parameter.  The scene is the list of added models. -/

/-- A loaded GLTF asset: its scene's axis-aligned bounding box (as
`Box3.setFromObject` computes it) and its animation clip count. -/
structure Gltf where
  boxMin : Vec3
  boxMax : Vec3
  animCount : Nat
deriving DecidableEq, Repr

/-- Embedding of `box.getCenter()`: the midpoint of the bounding box. -/
def boxCenter (g : Gltf) : Vec3 :=
  ⟨(g.boxMin.x + g.boxMax.x) / 2, (g.boxMin.y + g.boxMax.y) / 2,
    (g.boxMin.z + g.boxMax.z) / 2⟩

/-- Embedding of `box.getSize()`: the extent of the bounding box. -/
def boxSize (g : Gltf) : Vec3 :=
  ⟨g.boxMax.x - g.boxMin.x, g.boxMax.y - g.boxMin.y, g.boxMax.z - g.boxMin.z⟩

/-- The record `loadModel` resolves with. -/
structure LoadedModel where
  center : Vec3
  size : Vec3
  radius : ℚ
  hasMixer : Bool
  animCount : Nat
  modelPath : String
  modelIndex : Int
  modelName : Option String
  isControlCenter : Bool
deriving DecidableEq, Repr

/-- Embedding of `loadModel(scene, modelIndex)`: reject out-of-range indices before doing
anything, otherwise propagate a loader failure, or add the model to the
scene and resolve the bounding-box-derived record.  `cfgName` is
`config.defaultCameraPosition.name`; `paths`/`names` are the generated
`modelPaths`/`modelNames` arrays; `outcome` is what the GLTF loader
delivers for this path. -/
def loadModel (cfgName : String) (paths names : List String)
    (outcome : Except String Gltf) (scene : List Gltf) (modelIndex : Int) :
    List Gltf × Except String LoadedModel :=
  if modelIndex < 0 ∨ (paths.length : Int) ≤ modelIndex then
    (scene, .error "model index out of range")
  else
    match outcome with
    | .error e => (scene, .error e)
    | .ok g =>
      let modelPath := (paths.get? modelIndex.toNat).getD ""
      let modelName := names.get? modelIndex.toNat
      let size := boxSize g
      let radius := max (max size.x size.y) size.z
      let r : LoadedModel :=
        { center := boxCenter g, size := size, radius := radius,
          hasMixer := decide (0 < g.animCount), animCount := g.animCount,
          modelPath := modelPath, modelIndex := modelIndex,
          modelName := modelName,
          isControlCenter := modelName == some cfgName }
      (scene ++ [g], .ok r)

/-- A perspective camera, by the fields the auto-setup touches. -/
structure Camera where
  position : Vec3
  near : ℚ
  far : ℚ
deriving DecidableEq, Repr

/-- Orbit controls, by the field the auto-setup touches. -/
structure Controls where
  target : Vec3
deriving DecidableEq, Repr

/-- Embedding of `CameraManager` state. -/
structure CMState where
  camera : Option Camera
  controls : Option Controls
deriving DecidableEq, Repr

/-- Embedding of `CameraManager.setPosition`: update the camera position when a camera
exists, otherwise do nothing. -/
def CameraManager.setPosition (cm : CMState) (p : Vec3) : CMState :=
  match cm.camera with
  | some cam => { cm with camera := some { cam with position := p } }
  | none => cm

/-- Embedding of `CameraManager.setTarget`: update the controls target when controls
exist, otherwise do nothing. -/
def CameraManager.setTarget (cm : CMState) (t : Vec3) : CMState :=
  match cm.controls with
  | some _ => { cm with controls := some { target := t } }
  | none => cm

/-- An optional per-component position (`{x, y, z}` object whose components
may be absent), used by the `"position"` camera configuration. -/
structure PartialVec where
  x : Option ℚ := none
  y : Option ℚ := none
  z : Option ℚ := none
deriving DecidableEq, Repr

/-- Embedding of `config.defaultCameraPosition`. -/
structure CameraConfig where
  type : String
  name : String
  offset : Option Vec3 := none
  position : Option PartialVec := none
  lookAt : Option PartialVec := none
deriving DecidableEq, Repr

/-- The record `autoSetupCameraAndControls` returns on the model path. -/
structure AutoSetupResult where
  rtype : String
  modelName : Option String
  center : Vec3
  radius : ℚ
  offset : Vec3
  cameraPosition : Vec3
  success : Bool
deriving DecidableEq, Repr

/-- Embedding of `autoSetupCameraAndControls(cameraManager, loadedModels)`: returns the
mutated camera-manager state together with the setup record (`none` models
the JS `null` returns, including the caught `TypeError` when
`getCamera()` is `null` on the model path). -/
def autoSetupCameraAndControls (cfg : CameraConfig) (cm : Option CMState)
    (loadedModels : List LoadedModel) :
    Option CMState × Option AutoSetupResult :=
  match cm with
  | none => (none, none)
  | some c =>
    if loadedModels.isEmpty then (some c, none)
    else if cfg.type == "model" then
      match loadedModels.find?
          (fun m => m.isControlCenter && m.modelName == some cfg.name) with
      | some m =>
        let offset := cfg.offset.getD ⟨6, 2, 6⟩
        let cameraPosition : Vec3 :=
          ⟨m.center.x + m.radius * offset.x, m.center.y + m.radius * offset.y,
            m.center.z + m.radius * offset.z⟩
        let c1 := CameraManager.setPosition c cameraPosition
        let c2 := CameraManager.setTarget c1 m.center
        match c2.camera with
        | none => (some c2, none)
        | some cam =>
          let distance := max (max offset.x offset.y) offset.z * m.radius
          let cam2 := { cam with near := distance * (1/100), far := distance * 100 }
          let res : AutoSetupResult :=
            { rtype := "model", modelName := m.modelName,
              center := m.center, radius := m.radius, offset := offset,
              cameraPosition := cameraPosition, success := true }
          (some { c2 with camera := some cam2 }, some res)
      | none => (some c, none)
    else if cfg.type == "position" then
      match cfg.position, cfg.lookAt with
      | some p, some la =>
        let position : Vec3 := ⟨jsOrQ p.x 0, jsOrQ p.y 14, jsOrQ p.z 24⟩
        let lookAt : Vec3 := ⟨jsOrQ la.x 0, jsOrQ la.y 0, jsOrQ la.z 0⟩
        let c1 := CameraManager.setPosition c position
        let c2 := CameraManager.setTarget c1 lookAt
        let res : AutoSetupResult :=
          { rtype := "position", modelName := none, center := lookAt,
            radius := 0, offset := ⟨0, 0, 0⟩, cameraPosition := position,
            success := true }
        (some c2, some res)
      | _, _ => (some c, none)
    else (some c, none)

/-- C8: model loading rejects out-of-range indices without side effects
(the scene is returned unchanged with a rejection), and for every in-range
index whose load succeeds the resolved record carries
`modelPaths[modelIndex]` and `modelNames[modelIndex]`. -/
theorem load_model_C8 (cfgName : String) (paths names : List String)
    (outcome : Except String Gltf) (scene : List Gltf) (modelIndex : Int) :
    ((modelIndex < 0 ∨ (paths.length : Int) ≤ modelIndex) →
      loadModel cfgName paths names outcome scene modelIndex =
        (scene, .error "model index out of range")) ∧
    (∀ g, 0 ≤ modelIndex → modelIndex < (paths.length : Int) →
      outcome = .ok g →
      ∀ p, paths.get? modelIndex.toNat = some p →
        (loadModel cfgName paths names outcome scene modelIndex).2.toOption.map
            (fun r => r.modelPath) = some p ∧
        (loadModel cfgName paths names outcome scene modelIndex).2.toOption.map
            (fun r => r.modelName) = some (names.get? modelIndex.toNat)) := by
  constructor
  · intro h
    unfold loadModel
    rw [if_pos h]
  · intro g h0 h1 hout p hp
    subst hout
    have hcond : ¬ (modelIndex < 0 ∨ (paths.length : Int) ≤ modelIndex) := by
      push_neg
      exact ⟨h0, h1⟩
    unfold loadModel
    rw [if_neg hcond]
    rw [List.get?_eq_getElem?] at hp
    simp [hp, Except.toOption]

/-- Witness for C8: with one generated model, index 0 resolves to its path
and name, and index 5 is rejected leaving the scene unchanged. -/
theorem load_model_C8_witness :
    ((loadModel "structure" ["./models/structure.glb"] ["structure"]
        (.ok { boxMin := ⟨0, 0, 0⟩, boxMax := ⟨1, 2, 3⟩, animCount := 0 })
        [] 0).2.toOption.map (fun r => r.modelPath) =
      some "./models/structure.glb") ∧
    ((loadModel "structure" ["./models/structure.glb"] ["structure"]
        (.ok { boxMin := ⟨0, 0, 0⟩, boxMax := ⟨1, 2, 3⟩, animCount := 0 })
        [] 0).2.toOption.map (fun r => r.modelName) =
      some (["structure"].get? (0 : Int).toNat)) ∧
    loadModel "structure" ["./models/structure.glb"] ["structure"]
        (.ok { boxMin := ⟨0, 0, 0⟩, boxMax := ⟨1, 2, 3⟩, animCount := 0 })
        [] 5 =
      ([], .error "model index out of range") := by
  refine ⟨?_, ?_, ?_⟩
  · exact ((load_model_C8 "structure" ["./models/structure.glb"] ["structure"]
      (.ok { boxMin := ⟨0, 0, 0⟩, boxMax := ⟨1, 2, 3⟩, animCount := 0 }) [] 0).2
      { boxMin := ⟨0, 0, 0⟩, boxMax := ⟨1, 2, 3⟩, animCount := 0 }
      (by decide) (by decide) rfl "./models/structure.glb" rfl).1
  · exact ((load_model_C8 "structure" ["./models/structure.glb"] ["structure"]
      (.ok { boxMin := ⟨0, 0, 0⟩, boxMax := ⟨1, 2, 3⟩, animCount := 0 }) [] 0).2
      { boxMin := ⟨0, 0, 0⟩, boxMax := ⟨1, 2, 3⟩, animCount := 0 }
      (by decide) (by decide) rfl "./models/structure.glb" rfl).2
  · exact (load_model_C8 "structure" ["./models/structure.glb"] ["structure"]
      (.ok { boxMin := ⟨0, 0, 0⟩, boxMax := ⟨1, 2, 3⟩, animCount := 0 }) [] 5).1
      (by decide)

/-- C1: with a `"model"` camera config whose control-centre model is found,
`autoSetupCameraAndControls` sets the camera position to
`center + radius * offset` componentwise, the controls target to `center`,
and `near = 0.01 * d`, `far = 100 * d` for
`d = max(offset.x, offset.y, offset.z) * radius`; and `loadModel` computes
`radius` as `max(size.x, size.y, size.z)` of the bounding box at load time. -/
theorem camera_autoframe_C1 (cfg : CameraConfig) (c : CMState)
    (models : List LoadedModel) (m : LoadedModel) (off : Vec3)
    (cam : Camera) (ctr : Controls)
    (htype : cfg.type = "model")
    (hoff : cfg.offset = some off)
    (hfind : models.find?
      (fun mm => mm.isControlCenter && mm.modelName == some cfg.name) = some m)
    (hcam : c.camera = some cam) (hctr : c.controls = some ctr) :
    ((autoSetupCameraAndControls cfg (some c) models).1 =
      some
        { camera := some
            { position := ⟨m.center.x + m.radius * off.x,
                m.center.y + m.radius * off.y, m.center.z + m.radius * off.z⟩,
              near := (1/100) * (max (max off.x off.y) off.z * m.radius),
              far := 100 * (max (max off.x off.y) off.z * m.radius) },
          controls := some { target := m.center } }) ∧
    ((autoSetupCameraAndControls cfg (some c) models).2.isSome = true) ∧
    (∀ cfgName paths names g scene idx, 0 ≤ idx → idx < (paths.length : Int) →
      (loadModel cfgName paths names (.ok g) scene idx).2.toOption.map
          (fun r => r.radius) =
        some (max (max (boxSize g).x (boxSize g).y) (boxSize g).z)) := by
  have hne : models.isEmpty = false := by
    cases models with
    | nil => exact absurd hfind (by simp)
    | cons a l => rfl
  obtain ⟨cc, cctr⟩ := c
  simp only at hcam hctr
  subst hcam
  subst hctr
  refine ⟨?_, ?_, ?_⟩
  · simp only [autoSetupCameraAndControls, hne, Bool.false_eq_true, if_false,
      htype, beq_self_eq_true, if_true, hfind, hoff, Option.getD,
      CameraManager.setPosition, CameraManager.setTarget]
    simp only [Option.some.injEq, CMState.mk.injEq, Camera.mk.injEq,
      Controls.mk.injEq, Vec3.mk.injEq]
    repeat' apply And.intro
    all_goals first | rfl | ring | trivial
  · simp only [autoSetupCameraAndControls, hne, Bool.false_eq_true, if_false,
      htype, beq_self_eq_true, if_true, hfind, hoff, Option.getD,
      CameraManager.setPosition, CameraManager.setTarget]
    rfl
  · intro cfgName paths names g scene idx h0 h1
    have hcond : ¬ (idx < 0 ∨ (paths.length : Int) ≤ idx) := by
      push_neg
      exact ⟨h0, h1⟩
    unfold loadModel
    rw [if_neg hcond]
    simp [Except.toOption]

/-- Concrete inputs for the C1 witness. -/
def cfg0 : CameraConfig :=
  { type := "model", name := "structure", offset := some ⟨6, 2, 6⟩ }

/-- Concrete camera offset for the C1 witness. -/
def off0 : Vec3 := ⟨6, 2, 6⟩

/-- Concrete camera for the C1 witness. -/
def cam0 : Camera := { position := ⟨0, 0, 0⟩, near := 1/10, far := 1000 }

/-- Concrete controls for the C1 witness. -/
def ctr0 : Controls := { target := ⟨0, 0, 0⟩ }

/-- Concrete camera-manager state for the C1 witness. -/
def cm0 : CMState := { camera := some cam0, controls := some ctr0 }

/-- Concrete control-centre model for the C1 witness. -/
def m0 : LoadedModel :=
  { center := ⟨0, 0, 0⟩, size := ⟨1, 1, 1⟩, radius := 1,
    hasMixer := false, animCount := 0,
    modelPath := "./models/structure.glb", modelIndex := 0,
    modelName := some "structure", isControlCenter := true }

/-- Concrete GLTF asset for the C1 witness. -/
def g0 : Gltf := { boxMin := ⟨0, 0, 0⟩, boxMax := ⟨1, 2, 3⟩, animCount := 0 }

/-- Witness for C1 at a concrete control-centre model (`radius = 1`,
`center` the origin, offset `(6, 2, 6)`): the camera lands at
`center + radius * offset`, the target at the centre, and `loadModel`
derives the radius from the box extents at load time. -/
theorem camera_autoframe_C1_witness :
    ((autoSetupCameraAndControls cfg0 (some cm0) [m0]).1 =
      some
        { camera :=
            some
              { position :=
                  ⟨m0.center.x + m0.radius * off0.x,
                    m0.center.y + m0.radius * off0.y,
                    m0.center.z + m0.radius * off0.z⟩,
                near := (1/100) * (max (max off0.x off0.y) off0.z * m0.radius),
                far := 100 * (max (max off0.x off0.y) off0.z * m0.radius) },
          controls := some { target := m0.center } }) ∧
    ((loadModel "structure" ["./models/structure.glb"] ["structure"]
        (.ok g0) [] 0).2.toOption.map (fun r => r.radius) =
      some (max (max (boxSize g0).x (boxSize g0).y) (boxSize g0).z)) := by
  have h := camera_autoframe_C1 cfg0 cm0 [m0] m0 off0 cam0 ctr0
    rfl rfl (by rfl) rfl rfl
  exact ⟨h.1, h.2.2 "structure" ["./models/structure.glb"] ["structure"]
    g0 [] 0 (by decide) (by decide)⟩

end Viewer


